import Mathlib

/-!
Verification of the `autoscaled` request router / autoscaler core.

The definitions below are a shallow embedding of the TypeScript sources:

* `src/packages/autoscaled/src/state.ts` — the `AutoscalerState` registry
  (instance rows, the capacity counter row, the scaling-state row);
* the `Scaler` class (scale-up / scale-down policy);
* the `Router` class (instance selection and optimistic scale-up);
* `src/packages/autoscaled/src/instance-manager.ts` — `destroyInstance`;
* `src/packages/autoscaled/src/index.ts` — the `Autoscaler` durable-object
  controller (`fetch`, `getLeastLoadedContainer`, `createNewInstance`).

Modelling conventions: SQL `INTEGER` columns and ISO-8601 timestamps are
embedded as `ℤ` (timestamps in milliseconds since epoch; lexicographic
comparison of ISO strings coincides with numeric comparison of the
embedded values); JavaScript `number` configuration values and metric
percentages are embedded as `ℚ`; nullable columns and optional
configuration fields as `Option`; SQL booleans (`0`/`1`) as `Bool`.
The registry is a list of rows plus the two singleton rows.  External
effects (the container runtime) are an explicit oracle parameter.
-/

/-- One row of the `instances` table, following `InstanceRecord` in the
package's type declarations. -/
structure InstanceRecord where
  name : String
  created_at : ℤ
  active_requests : ℤ
  current_cpu : ℚ
  current_memory_MiB : ℚ
  current_disk_GB : ℚ
  healthy : Bool
  last_heartbeat : ℤ
  last_request_at : ℤ
  draining : Option Bool
  draining_since : Option ℤ
  health_check_failures : ℤ
  last_health_check : Option ℤ
  threshold_crossed_at : Option ℤ
  deriving DecidableEq, Repr

/-- Argument of `AutoscalerState.getInstances` (`InstanceFilter` in types). -/
structure InstanceFilter where
  healthy : Option Bool
  notDraining : Bool
  belowCapacity : Option ℚ
  deriving DecidableEq, Repr

/-- The persisted registry: the `instances` table, the single
`instance_capacity` row (`none` while the row has not been seeded by
`migrate`), and the single `scaling_state` row. -/
structure RegistryState where
  instances : List InstanceRecord
  capacity : Option (ℤ × ℤ)
  last_scale_up : Option ℤ
  last_scale_down : Option ℤ
  deriving DecidableEq, Repr

/-- `AutoscalerConfig` (the fields the verified operations read). -/
structure AutoscalerConfig where
  maxInstances : ℤ
  minInstances : Option ℤ
  maxRequestsPerInstance : Option ℚ
  scaleUpCapacityThreshold : Option ℚ
  scaleThesholdCPU : Option ℚ
  scaleThesholdMemoryMiB : Option ℚ
  scaleThesholdDiskGB : Option ℚ
  scaleThreshold : Option ℚ
  scaleUpCooldown : Option ℤ
  scaleDownCooldown : Option ℤ
  scaleDownThreshold : Option ℚ
  scaleDownThresholdCPU : Option ℚ
  scaleDownThresholdMemory : Option ℚ
  scaleDownThresholdDisk : Option ℚ
  deriving DecidableEq, Repr

/-- JavaScript truthiness of an optional numeric configuration value:
`undefined` and `0` are falsy (`!value` guards in the source). -/
def truthyQ : Option ℚ → Bool
  | none => false
  | some q => q != 0

/-- `WHERE` clause built by `AutoscalerState.getInstances`. -/
def matchesFilter (f : InstanceFilter) (i : InstanceRecord) : Bool :=
  (match f.healthy with
   | none => true
   | some h => i.healthy == h) &&
  (!f.notDraining || (i.draining == none || i.draining == some false)) &&
  (match f.belowCapacity with
   | none => true
   | some c => decide ((i.active_requests : ℚ) < c))

/-- `ORDER BY active_requests ASC, last_heartbeat DESC` as a total
Boolean preorder on rows. -/
def instanceLE (a b : InstanceRecord) : Bool :=
  a.active_requests < b.active_requests ||
    (a.active_requests == b.active_requests && b.last_heartbeat ≤ a.last_heartbeat)

/-- `AutoscalerState.getInstances`: filter, then the `ORDER BY`. -/
def RegistryState.getInstances (st : RegistryState) (f : InstanceFilter) :
    List InstanceRecord :=
  (st.instances.filter (matchesFilter f)).mergeSort instanceLE

/-- `AutoscalerState.getInstanceCount` (`healthyOnly` defaults to true at
call sites; passed explicitly here). -/
def RegistryState.getInstanceCount (st : RegistryState) (healthyOnly : Bool) : ℤ :=
  ((if healthyOnly then st.instances.filter (fun i => i.healthy)
    else st.instances).length : ℤ)

/-- `AutoscalerState.getInstanceByName`: first row with the given name. -/
def RegistryState.getInstanceByName (st : RegistryState) (name : String) :
    Option InstanceRecord :=
  st.instances.find? (fun i => i.name == name)

/-- `AutoscalerState.removeInstance`: `DELETE FROM instances WHERE name = ?`. -/
def RegistryState.removeInstance (st : RegistryState) (name : String) :
    RegistryState :=
  { st with instances := st.instances.filter (fun i => i.name != name) }

/-- The fresh row inserted by `AutoscalerState.incrementRequests` when no
row with the given name exists (columns omitted by the `INSERT` are
`NULL`; `draining` is inserted as `0`). -/
def freshIncrementRow (name : String) (now : ℤ) (healthy : Bool) (amount : ℤ) :
    InstanceRecord :=
  { name := name
    created_at := now
    active_requests := amount
    current_cpu := 0
    current_memory_MiB := 0
    current_disk_GB := 0
    healthy := healthy
    last_heartbeat := now
    last_request_at := now
    draining := some false
    draining_since := none
    health_check_failures := 0
    last_health_check := none
    threshold_crossed_at := none }

/-- The `ON CONFLICT` update arm of `AutoscalerState.incrementRequests`:
add `amount` to `active_requests`, refresh `last_heartbeat`,
`last_request_at` and `healthy` (the `COALESCE` updates keep the
metric columns, which are non-null here). -/
def conflictIncrementRow (i : InstanceRecord) (now : ℤ) (healthy : Bool)
    (amount : ℤ) : InstanceRecord :=
  { i with
    active_requests := i.active_requests + amount
    last_heartbeat := now
    last_request_at := now
    healthy := healthy }

/-- `AutoscalerState.incrementRequests`: upsert returning
`active_requests - amount` as `previousRequests`. -/
def RegistryState.incrementRequests (st : RegistryState) (name : String)
    (now : ℤ) (healthy : Bool) (amount : ℤ) : RegistryState × ℤ :=
  match st.getInstanceByName name with
  | none =>
      ({ st with instances := st.instances ++ [freshIncrementRow name now healthy amount] },
       amount - amount)
  | some i =>
      ({ st with instances :=
          st.instances.map (fun j =>
            if j.name == name then conflictIncrementRow j now healthy amount else j) },
       (i.active_requests + amount) - amount)

/-- `AutoscalerState.decrementRequests`:
`active_requests = MAX(0, active_requests - 1)` and refresh
`last_request_at` on the named row. -/
def RegistryState.decrementRequests (st : RegistryState) (name : String)
    (now : ℤ) : RegistryState :=
  { st with instances :=
      st.instances.map (fun i =>
        if i.name == name then
          { i with active_requests := max 0 (i.active_requests - 1)
                   last_request_at := now }
        else i) }

/-- `AutoscalerState.tryReserveSlot`: conditional
`current_count += 1 WHERE current_count < max_count`; the returned
Boolean is whether a row was updated. -/
def RegistryState.tryReserveSlot (st : RegistryState) : Bool × RegistryState :=
  match st.capacity with
  | none => (false, st)
  | some (c, m) =>
      if c < m then (true, { st with capacity := some (c + 1, m) })
      else (false, st)

/-- `AutoscalerState.releaseSlot`: `current_count = MAX(0, current_count - 1)`. -/
def RegistryState.releaseSlot (st : RegistryState) : RegistryState :=
  { st with capacity := st.capacity.map (fun cm => (max 0 (cm.1 - 1), cm.2)) }

/-- `AutoscalerState.syncCapacity`: `current_count := COUNT(*)` over the
`instances` table. -/
def RegistryState.syncCapacity (st : RegistryState) : RegistryState :=
  { st with capacity := st.capacity.map (fun cm => ((st.instances.length : ℤ), cm.2)) }

/-- Modelled from the spec: `markThresholdCrossed(name, now)` sets the
instance's `threshold_crossed_at` to `now`.  The registry method (and
its column in `migrate`) is absent from the `state.ts` snapshot under
`src/`, but it is called by `Scaler.shouldScaleUpForMetrics`, the field
is declared on `InstanceRecord` in the package's types, and the spec
lists the operation among the registry methods. -/
def RegistryState.markThresholdCrossed (st : RegistryState) (name : String)
    (now : ℤ) : RegistryState :=
  { st with instances :=
      st.instances.map (fun i =>
        if i.name == name then { i with threshold_crossed_at := some now } else i) }

/-- `AutoscalerState.migrate(maxInstances)`: table creation is
idempotent; the capacity row is seeded by `INSERT OR IGNORE` with
`current_count = COUNT(instances)` and `max_count = maxInstances`,
leaving an existing row untouched. -/
def RegistryState.migrate (st : RegistryState) (maxInstances : ℤ) : RegistryState :=
  { st with capacity :=
      match st.capacity with
      | some cm => some cm
      | none => some ((st.instances.length : ℤ), maxInstances) }

/-- The store before any migration: no rows at all. -/
def RegistryState.emptyStore : RegistryState :=
  { instances := [], capacity := none, last_scale_up := none, last_scale_down := none }

/-! ### Scaler (pure scaling policy) -/

/-- `hasSpecificThresholds`: at least one per-metric scale-up threshold
is configured (`!== undefined` checks). -/
def hasSpecificThresholds (cfg : AutoscalerConfig) : Bool :=
  cfg.scaleThesholdCPU.isSome || cfg.scaleThesholdMemoryMiB.isSome ||
    cfg.scaleThesholdDiskGB.isSome

/-- `hasAllSpecificThresholds`: all three per-metric scale-up thresholds
are configured. -/
def hasAllSpecificThresholds (cfg : AutoscalerConfig) : Bool :=
  cfg.scaleThesholdCPU.isSome && cfg.scaleThesholdMemoryMiB.isSome &&
    cfg.scaleThesholdDiskGB.isSome

/-- `Scaler.isInScaleUpCooldown` at time `now`. -/
def isInScaleUpCooldown (cfg : AutoscalerConfig) (st : RegistryState)
    (now : ℤ) : Bool :=
  match st.last_scale_up with
  | none => false
  | some t => now - t < cfg.scaleUpCooldown.getD 60000

/-- `Scaler.isInScaleDownCooldown` at time `now`. -/
def isInScaleDownCooldown (cfg : AutoscalerConfig) (st : RegistryState)
    (now : ℤ) : Bool :=
  match st.last_scale_down with
  | none => false
  | some t => now - t < cfg.scaleDownCooldown.getD 120000

/-- `Scaler.shouldScaleUpForRequests`.  Note that `currentCount` is
`getInstanceCount()` — the number of healthy rows, draining included —
while `totalRequests` sums over healthy non-draining rows only. -/
def shouldScaleUpForRequests (cfg : AutoscalerConfig) (st : RegistryState)
    (now : ℤ) : Bool :=
  let currentCount := st.getInstanceCount true
  if currentCount ≥ cfg.maxInstances then false
  else if isInScaleUpCooldown cfg st now then false
  else if !truthyQ cfg.maxRequestsPerInstance then false
  else
    let instances := st.getInstances ⟨some true, true, none⟩
    let totalRequests := (instances.map (fun i => i.active_requests)).sum
    let avgRequestsPerInstance : ℚ :=
      if currentCount > 0 then (totalRequests : ℚ) / (currentCount : ℚ) else 0
    decide (avgRequestsPerInstance > cfg.maxRequestsPerInstance.getD 0)

/-- Per-instance eligibility inside `shouldScaleUpForMetrics`: the
instance may cross again if `threshold_crossed_at` is absent or at
least `scaleUpCooldown` old. -/
def canCross (cfg : AutoscalerConfig) (i : InstanceRecord) (now : ℤ) : Bool :=
  match i.threshold_crossed_at with
  | none => true
  | some t => now - t ≥ cfg.scaleUpCooldown.getD 60000

/-- The per-instance threshold test of `shouldScaleUpForMetrics`:
specific thresholds when all three are set, else the general
`scaleThreshold` when defined, else no metric exceeds. -/
def exceedsThreshold (cfg : AutoscalerConfig) (i : InstanceRecord) : Bool :=
  if hasAllSpecificThresholds cfg then
    decide (i.current_cpu > cfg.scaleThesholdCPU.getD 0) ||
    decide (i.current_memory_MiB > cfg.scaleThesholdMemoryMiB.getD 0) ||
    decide (i.current_disk_GB > cfg.scaleThesholdDiskGB.getD 0)
  else
    match cfg.scaleThreshold with
    | some threshold =>
        decide (i.current_cpu > threshold) ||
        decide (i.current_memory_MiB > threshold) ||
        decide (i.current_disk_GB > threshold)
    | none => false

/-- The scan loop of `shouldScaleUpForMetrics`: skip instances that
crossed recently; return the first eligible instance exceeding its
thresholds. -/
def scaleUpScan (cfg : AutoscalerConfig) (now : ℤ) :
    List InstanceRecord → Option InstanceRecord
  | [] => none
  | i :: rest =>
      if canCross cfg i now && exceedsThreshold cfg i then some i
      else scaleUpScan cfg now rest

/-- `Scaler.shouldScaleUpForMetrics`: guards, then the scan; on a
detected crossing the instance is marked via `markThresholdCrossed`
and the function returns true. -/
def shouldScaleUpForMetrics (cfg : AutoscalerConfig) (st : RegistryState)
    (now : ℤ) : Bool × RegistryState :=
  if st.getInstanceCount true ≥ cfg.maxInstances then (false, st)
  else if isInScaleUpCooldown cfg st now then (false, st)
  else if !hasSpecificThresholds cfg && !truthyQ cfg.scaleThreshold then (false, st)
  else
    let instances := st.getInstances ⟨some true, true, none⟩
    if instances.isEmpty then (false, st)
    else
      match scaleUpScan cfg now instances with
      | some i => (true, st.markThresholdCrossed i.name now)
      | none => (false, st)

/-- `Scaler.calculateScaleDownThresholds` as `(cpu, memory, disk)`. -/
def calculateScaleDownThresholds (cfg : AutoscalerConfig) : ℚ × ℚ × ℚ :=
  if hasAllSpecificThresholds cfg then
    let scaleUpCPU := cfg.scaleThesholdCPU.getD 0
    let scaleUpMemory := cfg.scaleThesholdMemoryMiB.getD 0
    let scaleUpDisk := cfg.scaleThesholdDiskGB.getD 0
    (cfg.scaleDownThresholdCPU.getD (scaleUpCPU - 45),
     cfg.scaleDownThresholdMemory.getD (scaleUpMemory - 45),
     cfg.scaleDownThresholdDisk.getD (scaleUpDisk - 45))
  else
    let scaleUpThreshold := cfg.scaleThreshold.getD 75
    let generalScaleDownThreshold :=
      cfg.scaleDownThreshold.getD (scaleUpThreshold - 45)
    (generalScaleDownThreshold, generalScaleDownThreshold, generalScaleDownThreshold)

/-- A row exceeds the scale-down thresholds on some metric. -/
def aboveScaleDownThresholds (cfg : AutoscalerConfig) (i : InstanceRecord) : Bool :=
  let t := calculateScaleDownThresholds cfg
  decide (i.current_cpu > t.1) || decide (i.current_memory_MiB > t.2.1) ||
    decide (i.current_disk_GB > t.2.2)

/-- `Scaler.shouldScaleDown`. -/
def shouldScaleDown (cfg : AutoscalerConfig) (st : RegistryState)
    (now : ℤ) : Bool :=
  let minInstances := cfg.minInstances.getD 0
  let currentCount := st.getInstanceCount true
  if currentCount ≤ minInstances then false
  else if isInScaleDownCooldown cfg st now then false
  else
    let instances := st.getInstances ⟨some true, true, none⟩
    if instances.isEmpty then false
    else instances.all (fun i => !aboveScaleDownThresholds cfg i)

/-! ### Router -/

/-- `Router.selectInstance`: healthy non-draining rows below capacity
(when `maxRequestsPerInstance` is set) in the registry ordering,
falling back to any healthy non-draining row. -/
def selectInstance (cfg : AutoscalerConfig) (st : RegistryState) :
    Option InstanceRecord :=
  let instances := st.getInstances ⟨some true, true, cfg.maxRequestsPerInstance⟩
  match instances.head? with
  | some i => some i
  | none =>
      let anyHealthy := st.getInstances ⟨some true, true, none⟩
      anyHealthy.head?

/-- `Router.checkOptimisticScaleUp(name, previousActiveRequests)`.  The
instance name only feeds logging, so it is omitted. -/
def checkOptimisticScaleUp (cfg : AutoscalerConfig)
    (previousActiveRequests : ℤ) : Bool :=
  if !truthyQ cfg.maxRequestsPerInstance then false
  else
    let threshold := cfg.scaleUpCapacityThreshold.getD (7 / 10)
    let capacityLimit : ℤ := ⌊cfg.maxRequestsPerInstance.getD 0 * threshold⌋
    let currentRequests := previousActiveRequests + 1
    decide (previousActiveRequests < capacityLimit) &&
      decide (currentRequests ≥ capacityLimit)

/-! ### InstanceManager -/

/-- Outcome of the runtime `container.destroy()` call. -/
inductive DestroyOutcome
  | success
  | failure
  deriving DecidableEq, Repr

/-- `InstanceManager.destroyInstance(name)`: the `try` arm destroys and
removes the row; the `catch` arm logs and removes the row as well. -/
def destroyInstance (st : RegistryState) (name : String) :
    DestroyOutcome → RegistryState
  | DestroyOutcome.success => st.removeInstance name
  | DestroyOutcome.failure => st.removeInstance name

/-! ### Controller (`Autoscaler` in `src/packages/autoscaled/src/index.ts`)

The controller keeps its own `instances` table (no `draining`,
`instance_capacity` or `scaling_state`); its queries only touch the
columns shared with the registry rows above, so `RegistryState` is
reused with those parts unread. -/

/-- Container runtime state (`State.status`). -/
inductive CState
  | running
  | healthy
  | stopped
  | other
  deriving DecidableEq, Repr

/-- `Autoscaler.#isHealthy`: `status === "running" || status === "healthy"`. -/
def isHealthyState : CState → Bool
  | CState.running => true
  | CState.healthy => true
  | CState.stopped => false
  | CState.other => false

/-- Behaviour of the external container runtime during one `fetch`:
`createResult` is the outcome of `getContainer` + `startAndWaitForPorts`
+ `getState` for a freshly minted id (`none` = the call threw);
`getStateOf` is `getByName(...).getState()` (`none` = threw);
`destroyOK` is whether `container.destroy()` succeeds;
`upstreamOK` is whether `container.fetch(request)` succeeds. -/
structure RuntimeOracle where
  createResult : Option (String × CState)
  getStateOf : String → Option CState
  destroyOK : String → Bool
  upstreamOK : String → Bool

/-- `Autoscaler.createNewInstance`: throws when the healthy row count has
reached `maxInstances`, otherwise starts a fresh container. -/
def createNewInstance (cfg : AutoscalerConfig) (st : RegistryState)
    (o : RuntimeOracle) : Option (String × CState) :=
  if st.getInstanceCount true ≥ cfg.maxInstances then none
  else o.createResult

/-- `Autoscaler.#removeInstance` (with `destroy = true`): the row is
deleted only when `destroy()` did not throw (the `DELETE` sits after
the `await` inside the same `try`). -/
def ctrlRemoveInstance (st : RegistryState) (o : RuntimeOracle)
    (name : String) : RegistryState :=
  if o.destroyOK name then st.removeInstance name else st

/-- `Autoscaler.getLeastLoadedContainer`: least-loaded healthy row, a
fresh container when there is none, a fallback row when creation
fails, and replacement logic for an unhealthy selection.  `none`
models an exception propagating to `fetch`'s `catch`. -/
def getLeastLoadedContainer (cfg : AutoscalerConfig) (st : RegistryState)
    (o : RuntimeOracle) : Option (String × CState × RegistryState) :=
  match ((st.instances.filter (fun i => i.healthy)).mergeSort instanceLE).head? with
  | none =>
      (match createNewInstance cfg st o with
       | some (n, s) => some (n, s, st)
       | none =>
           match (st.instances.mergeSort instanceLE).head? with
           | some r =>
               (match o.getStateOf r.name with
                | some s => some (r.name, s, st)
                | none => none)
           | none => none)
  | some r =>
      match o.getStateOf r.name with
      | none => none
      | some s =>
          if isHealthyState s then some (r.name, s, st)
          else
            match createNewInstance cfg st o with
            | some (n, s2) => some (n, s2, st)
            | none =>
                let st2 := ctrlRemoveInstance st o r.name
                match createNewInstance cfg st2 o with
                | some (n, s2) => some (n, s2, st2)
                | none => none

/-- `Autoscaler.beforeRequest`: upsert of the selected row.  The `INSERT`
arm omits the `NOT NULL` column `last_request_at` of the controller's
own schema, so a fresh insert raises a constraint error (`none`); the
`ON CONFLICT` arm bumps `active_requests` by one and refreshes
`last_heartbeat` and `healthy`. -/
def beforeRequest (st : RegistryState) (name : String) (s : CState)
    (now : ℤ) : Option RegistryState :=
  match st.getInstanceByName name with
  | none => none
  | some _ =>
      some { st with instances :=
        st.instances.map (fun j =>
          if j.name == name then
            { j with active_requests := j.active_requests + 1
                     last_heartbeat := now
                     healthy := isHealthyState s }
          else j) }

/-- `Autoscaler.afterRequest`: decrement clamped at zero and refresh
`last_request_at`; dispatched via `waitUntil`, so it always runs. -/
def afterRequest (st : RegistryState) (name : String) (now : ℤ) :
    RegistryState :=
  { st with instances :=
      st.instances.map (fun i =>
        if i.name == name then
          { i with active_requests := max 0 (i.active_requests - 1)
                   last_request_at := now }
        else i) }

/-- What `Autoscaler.fetch` hands back to the client. -/
inductive FetchResult
  | healthz
  | upstream (name : String)
  | errorResponse (status : ℕ) (body : String)
  deriving DecidableEq, Repr

/-- HTTP status surfaced by a `FetchResult` (`none` for an upstream
response, whose status belongs to the container). -/
def statusOf : FetchResult → Option ℕ
  | FetchResult.healthz => some 200
  | FetchResult.upstream _ => none
  | FetchResult.errorResponse s _ => some s

/-- `Autoscaler.fetch`: monitoring snapshot on the configured endpoint,
otherwise route to the least-loaded container; every exception is
caught and answered with `500 Internal Server Error`. -/
def Autoscaler.fetch (cfg : AutoscalerConfig) (st : RegistryState)
    (o : RuntimeOracle) (now : ℤ) (isMonitoringGet : Bool) :
    FetchResult × RegistryState :=
  if isMonitoringGet then (FetchResult.healthz, st)
  else
    match getLeastLoadedContainer cfg st o with
    | none => (FetchResult.errorResponse 500 "Internal Server Error", st)
    | some (name, s, st2) =>
        match beforeRequest st2 name s now with
        | none => (FetchResult.errorResponse 500 "Internal Server Error", st2)
        | some st3 =>
            let st4 := afterRequest st3 name now
            if o.upstreamOK name then (FetchResult.upstream name, st4)
            else (FetchResult.errorResponse 500 "Internal Server Error", st4)

/-! ### Spec-side definition used to compare against the code (C5)

The spec sentence defines the request-based trigger through the average
over the healthy non-draining instances themselves. -/

/-- Written from the spec's words: the average `active_requests` across
the healthy non-draining instances (for comparison with the code's
`shouldScaleUpForRequests`, whose divisor differs). -/
def specAvgOverHealthyNonDraining (st : RegistryState) : ℚ :=
  let s := st.getInstances ⟨some true, true, none⟩
  ((s.map (fun i => i.active_requests)).sum : ℚ) / (s.length : ℚ)

/-! ### Invariant predicates and helper lemmas -/

/-- The capacity-counter bound `0 ≤ current_count ≤ max_count`
(vacuously true while the row is not seeded). -/
def capacityBoundB (st : RegistryState) : Bool :=
  match st.capacity with
  | none => true
  | some (c, m) => decide (0 ≤ c) && decide (c ≤ m)

theorem instanceLE_iff (a b : InstanceRecord) :
    instanceLE a b = true ↔
      (a.active_requests < b.active_requests ∨
        (a.active_requests = b.active_requests ∧
          b.last_heartbeat ≤ a.last_heartbeat)) := by
  simp [instanceLE]

theorem instanceLE_trans (a b c : InstanceRecord)
    (hab : instanceLE a b = true) (hbc : instanceLE b c = true) :
    instanceLE a c = true := by
  rw [instanceLE_iff] at *
  rcases hab with h1 | ⟨h1, h2⟩ <;> rcases hbc with h3 | ⟨h3, h4⟩
  · exact Or.inl (h1.trans h3)
  · exact Or.inl (h3 ▸ h1)
  · exact Or.inl (h1 ▸ h3)
  · exact Or.inr ⟨h1.trans h3, h4.trans h2⟩

theorem instanceLE_total (a b : InstanceRecord) :
    (instanceLE a b || instanceLE b a) = true := by
  rcases lt_trichotomy a.active_requests b.active_requests with h | h | h
  · simp [instanceLE_iff, h]
  · rcases le_total b.last_heartbeat a.last_heartbeat with h2 | h2 <;>
      simp [instanceLE_iff, h, h2]
  · simp [instanceLE_iff, h]

theorem instanceLE_refl (a : InstanceRecord) : instanceLE a a = true := by
  simp [instanceLE_iff]

/-- The head of the registry ordering is a least element. -/
theorem head?_mergeSort_min (l : List InstanceRecord) (a : InstanceRecord)
    (h : (l.mergeSort instanceLE).head? = some a) :
    a ∈ l ∧ ∀ x ∈ l, instanceLE a x = true := by
  rcases hm : l.mergeSort instanceLE with _ | ⟨b, t⟩
  · rw [hm] at h; simp at h
  · rw [hm] at h
    simp only [List.head?] at h
    have hba : b = a := by injection h
    subst hba
    have hmem : b ∈ l := List.mem_mergeSort.mp (by rw [hm]; exact List.mem_cons_self b t)
    have hs := List.sorted_mergeSort
      (fun x y z => instanceLE_trans x y z)
      (fun x y => instanceLE_total x y) l
    rw [hm, List.pairwise_cons] at hs
    refine ⟨hmem, fun x hx => ?_⟩
    have hx2 : x ∈ l.mergeSort instanceLE := List.mem_mergeSort.mpr hx
    rw [hm, List.mem_cons] at hx2
    rcases hx2 with rfl | hx2
    · exact instanceLE_refl x
    · exact hs.1 x hx2

theorem mergeSort_eq_nil_iff (l : List InstanceRecord) :
    l.mergeSort instanceLE = [] ↔ l = [] := by
  constructor
  · intro h
    exact List.perm_nil.mp (h ▸ (List.mergeSort_perm l instanceLE).symm)
  · intro h
    subst h
    exact List.perm_nil.mp (List.mergeSort_perm [] instanceLE)

/-- A `map` that rewrites only the row named `name` is the identity when
no row has that name. -/
theorem map_update_eq_self (l : List InstanceRecord) (name : String)
    (f : InstanceRecord → InstanceRecord)
    (h : ∀ i ∈ l, (i.name == name) = false) :
    l.map (fun i => if i.name == name then f i else i) = l := by
  have : l.map (fun i => if i.name == name then f i else i) = l.map id := by
    refine List.map_congr_left (fun i hi => ?_)
    simp [h i hi]
  rw [this, List.map_id]

/-! ### Claim theorems -/

/-- C9: `destroyInstance(name)` removes the instance's registry record
whether the runtime `destroy()` call succeeds or throws — both the
`try` arm and the `catch` arm call `removeInstance`, so the row named
`name` is gone and all other rows are untouched. -/
theorem destroyInstance_always_removes_record (st : RegistryState)
    (name : String) (o : DestroyOutcome) :
    (destroyInstance st name o).instances
        = st.instances.filter (fun i => i.name != name)
      ∧ (destroyInstance st name o).getInstanceByName name = none := by
  cases o <;>
    refine ⟨rfl, ?_⟩ <;>
    · rw [RegistryState.getInstanceByName, List.find?_eq_none]
      intro x hx
      simp only [destroyInstance, RegistryState.removeInstance, List.mem_filter,
        bne_iff_ne, ne_eq] at hx
      simp [hx.2]

/-- C10: on a name with no registry row, `incrementRequests` inserts a
fresh row whose `active_requests` equals `amount` and reports
`previousRequests = 0`, while `decrementRequests` leaves the registry
unchanged — the pair is not symmetric on unknown names. -/
theorem incrementRequests_decrementRequests_unknown_name
    (st : RegistryState) (name : String) (now : ℤ) (healthy : Bool)
    (amount : ℤ) (h : st.getInstanceByName name = none) :
    (st.incrementRequests name now healthy amount).2 = 0
      ∧ (st.incrementRequests name now healthy amount).1.getInstanceByName name
          = some (freshIncrementRow name now healthy amount)
      ∧ (freshIncrementRow name now healthy amount).active_requests = amount
      ∧ st.decrementRequests name now = st := by
  have habsent : ∀ i ∈ st.instances, (i.name == name) = false := by
    intro i hi
    have := List.find?_eq_none.mp h i hi
    simpa using this
  have hf : st.instances.find? (fun i => i.name == name) = none := h
  refine ⟨?_, ?_, rfl, ?_⟩
  · simp [RegistryState.incrementRequests, h]
  · simp only [RegistryState.incrementRequests, RegistryState.getInstanceByName, hf]
    rw [List.find?_append, hf]
    simp [freshIncrementRow]
  · rcases st with ⟨ins, cap, lsu, lsd⟩
    simp only [RegistryState.decrementRequests, RegistryState.mk.injEq,
      and_true, true_and]
    exact map_update_eq_self ins name _ (fun i hi => habsent i hi)

/-- Witness for C10 at a concrete input: the empty registry has no row
named `a`; incrementing by 3 inserts a row with `active_requests = 3`
and reports `previousRequests = 0`, and decrementing is a no-op. -/
theorem incrementRequests_decrementRequests_unknown_name_witness :
    RegistryState.emptyStore.getInstanceByName "a" = none
      ∧ (RegistryState.emptyStore.incrementRequests "a" 5 true 3).2 = 0
      ∧ (RegistryState.emptyStore.incrementRequests "a" 5 true 3).1.getInstanceByName "a"
          = some (freshIncrementRow "a" 5 true 3)
      ∧ RegistryState.emptyStore.decrementRequests "a" 5 = RegistryState.emptyStore := by
  have h := incrementRequests_decrementRequests_unknown_name
    RegistryState.emptyStore "a" 5 true 3 (by decide)
  exact ⟨by decide, h.1, h.2.1, h.2.2.2⟩

/-- C8 counterexample: with the capacity row at `(1, 1)` — a state the
bound allows — `tryReserveSlot` fails (no slot free) yet the following
`releaseSlot` still decrements, leaving `(0, 1)`: the pair is not a
no-op on the counter. -/
theorem tryReserve_release_not_noop_at_full :
    (RegistryState.tryReserveSlot
        { instances := [], capacity := some (1, 1),
          last_scale_up := none, last_scale_down := none }).1 = false
      ∧ ((RegistryState.tryReserveSlot
            { instances := [], capacity := some (1, 1),
              last_scale_up := none, last_scale_down := none }).2.releaseSlot).capacity
          = some (0, 1) := by
  decide

/-- C8 amended: when the counter is non-negative, `tryReserveSlot`
followed by `releaseSlot` restores the state exactly when the
reservation succeeded; after a failed reservation the pair decrements
`current_count` (clamped at 0). -/
theorem tryReserve_release_noop_on_success (st : RegistryState) (c m : ℤ)
    (hc : st.capacity = some (c, m)) (h0 : 0 ≤ c) :
    ((st.tryReserveSlot).1 = true → (st.tryReserveSlot).2.releaseSlot = st)
      ∧ ((st.tryReserveSlot).1 = false →
          ((st.tryReserveSlot).2.releaseSlot).capacity = some (max 0 (c - 1), m)) := by
  rcases st with ⟨ins, cap, lsu, lsd⟩
  simp only at hc
  subst hc
  by_cases hcm : c < m
  · refine ⟨fun _ => ?_, fun hfalse => ?_⟩
    · have h2 : (0 : ℤ) ⊔ (c + 1 - 1) = c := by omega
      simp [RegistryState.tryReserveSlot, if_pos hcm, RegistryState.releaseSlot, h2, h0]
    · simp [RegistryState.tryReserveSlot, if_pos hcm] at hfalse
  · refine ⟨fun htrue => ?_, fun _ => ?_⟩
    · simp [RegistryState.tryReserveSlot, if_neg hcm] at htrue
    · simp [RegistryState.tryReserveSlot, if_neg hcm, RegistryState.releaseSlot]

/-- Witness for the amended C8 at a concrete input: counter `(0, 2)`;
the reservation succeeds and release restores the state. -/
theorem tryReserve_release_noop_on_success_witness :
    (RegistryState.tryReserveSlot
        { instances := [], capacity := some (0, 2),
          last_scale_up := none, last_scale_down := none }).1 = true
      ∧ (RegistryState.tryReserveSlot
          { instances := [], capacity := some (0, 2),
            last_scale_up := none, last_scale_down := none }).2.releaseSlot
        = { instances := [], capacity := some (0, 2),
            last_scale_up := none, last_scale_down := none } := by
  have h := tryReserve_release_noop_on_success
    { instances := [], capacity := some (0, 2),
      last_scale_up := none, last_scale_down := none } 0 2 rfl (by decide)
  exact ⟨by decide, h.1 (by decide)⟩

/-- C2 counterexample: a registry reached from the empty store by
`migrate(0)` followed by the registry operation
`incrementRequests("x", …)` satisfies `0 ≤ current_count ≤ max_count`
(the counter row is `(0, 0)`), yet `syncCapacity` — which copies the
row count of `instances` into `current_count` without clamping —
leaves the counter at `(1, 0)`, violating the upper bound. -/
theorem syncCapacity_breaks_upper_bound :
    capacityBoundB
        ((RegistryState.emptyStore.migrate 0).incrementRequests "x" 0 true 1).1 = true
      ∧ ((RegistryState.emptyStore.migrate 0).incrementRequests "x" 0 true 1).1.capacity
          = some (0, 0)
      ∧ capacityBoundB
          (((RegistryState.emptyStore.migrate 0).incrementRequests "x" 0 true 1).1.syncCapacity)
          = false := by
  decide

/-- C2 amended: `tryReserveSlot` and `releaseSlot` preserve
`0 ≤ current_count ≤ max_count`; `syncCapacity` sets `current_count`
to the (non-negative) instance row count, so it preserves the upper
bound exactly when that row count is at most `max_count`. -/
theorem capacity_ops_preserve_bound (st : RegistryState) (c m : ℤ)
    (hc : st.capacity = some (c, m)) (h0 : 0 ≤ c) (hm : c ≤ m) :
    capacityBoundB (st.tryReserveSlot).2 = true
      ∧ capacityBoundB st.releaseSlot = true
      ∧ (st.syncCapacity).capacity = some ((st.instances.length : ℤ), m)
      ∧ (0 : ℤ) ≤ (st.instances.length : ℤ)
      ∧ ((st.instances.length : ℤ) ≤ m → capacityBoundB st.syncCapacity = true) := by
  refine ⟨?_, ?_, ?_, Int.natCast_nonneg _, ?_⟩
  · rcases hr : st.tryReserveSlot with ⟨b, st2⟩
    rcases st with ⟨ins, cap, lsu, lsd⟩
    simp only at hc
    subst hc
    by_cases hcm : c < m
    · simp only [RegistryState.tryReserveSlot, if_pos hcm, Prod.mk.injEq] at hr
      rw [← hr.2]
      simp only [capacityBoundB, Bool.and_eq_true, decide_eq_true_eq]
      omega
    · simp only [RegistryState.tryReserveSlot, if_neg hcm, Prod.mk.injEq] at hr
      rw [← hr.2]
      simp only [capacityBoundB, Bool.and_eq_true, decide_eq_true_eq]
      omega
  · rcases st with ⟨ins, cap, lsu, lsd⟩
    simp only at hc
    subst hc
    simp only [RegistryState.releaseSlot, Option.map, capacityBoundB,
      Bool.and_eq_true, decide_eq_true_eq]
    omega
  · rcases st with ⟨ins, cap, lsu, lsd⟩
    simp only at hc
    subst hc
    simp [RegistryState.syncCapacity, Option.map]
  · intro hlen
    rcases st with ⟨ins, cap, lsu, lsd⟩
    simp only at hc
    subst hc
    simp only [RegistryState.syncCapacity, Option.map, capacityBoundB,
      Bool.and_eq_true, decide_eq_true_eq]
    exact ⟨Int.natCast_nonneg _, hlen⟩

/-- Witness for the amended C2 at a concrete input: counter `(1, 2)`
with one instance row; all three operations keep the bound, and the
row count 1 is within `max_count = 2`. -/
theorem capacity_ops_preserve_bound_witness :
    capacityBoundB (RegistryState.tryReserveSlot
        { instances := [freshIncrementRow "x" 0 true 1], capacity := some (1, 2),
          last_scale_up := none, last_scale_down := none }).2 = true
      ∧ capacityBoundB (RegistryState.releaseSlot
          { instances := [freshIncrementRow "x" 0 true 1], capacity := some (1, 2),
            last_scale_up := none, last_scale_down := none }) = true
      ∧ capacityBoundB (RegistryState.syncCapacity
          { instances := [freshIncrementRow "x" 0 true 1], capacity := some (1, 2),
            last_scale_up := none, last_scale_down := none }) = true := by
  have h := capacity_ops_preserve_bound
    { instances := [freshIncrementRow "x" 0 true 1], capacity := some (1, 2),
      last_scale_up := none, last_scale_down := none } 1 2 rfl (by decide) (by decide)
  exact ⟨h.1, h.2.1, h.2.2.2.2 (by decide)⟩

/-- C6: `checkOptimisticScaleUp` returns true iff
`maxRequestsPerInstance` is configured and the transition
`prev → prev + 1` crosses
`floor(maxRequestsPerInstance × scaleUpCapacityThreshold)` (default
`7/10`) from below, i.e. `prev < ⌊cap·t⌋ ≤ prev + 1`; consequently,
along a monotonically increasing request counter the trigger fires for
at most one value of `prev`. -/
theorem checkOptimisticScaleUp_edge_trigger (cfg : AutoscalerConfig)
    (prev : ℕ) :
    (checkOptimisticScaleUp cfg (prev : ℤ) = true ↔
        ∃ cap, cfg.maxRequestsPerInstance = some cap ∧
          (prev : ℤ) < ⌊cap * cfg.scaleUpCapacityThreshold.getD (7 / 10)⌋ ∧
          ⌊cap * cfg.scaleUpCapacityThreshold.getD (7 / 10)⌋ ≤ (prev : ℤ) + 1)
      ∧ (∀ q : ℕ, checkOptimisticScaleUp cfg (prev : ℤ) = true →
          checkOptimisticScaleUp cfg (q : ℤ) = true → prev = q) := by
  have hmain : ∀ p : ℕ, checkOptimisticScaleUp cfg (p : ℤ) = true ↔
      ∃ cap, cfg.maxRequestsPerInstance = some cap ∧
        (p : ℤ) < ⌊cap * cfg.scaleUpCapacityThreshold.getD (7 / 10)⌋ ∧
        ⌊cap * cfg.scaleUpCapacityThreshold.getD (7 / 10)⌋ ≤ (p : ℤ) + 1 := by
    intro p
    rcases hcap : cfg.maxRequestsPerInstance with _ | cap
    · simp [checkOptimisticScaleUp, hcap, truthyQ]
    · by_cases hz : cap = 0
      · subst hz
        constructor
        · intro hfire
          simp [checkOptimisticScaleUp, hcap, truthyQ] at hfire
        · rintro ⟨cap2, hcap2, hlt, hle⟩
          injection hcap2 with hcap2
          subst hcap2
          rw [zero_mul, Int.floor_zero] at hlt
          exact absurd hlt (Int.natCast_nonneg p).not_lt
      · have hne : truthyQ (some cap) = true := by simp [truthyQ, hz]
        simp only [checkOptimisticScaleUp, hcap, hne, Bool.not_true,
          Bool.false_eq_true, if_false, Option.getD_some, Bool.and_eq_true,
          decide_eq_true_eq, ge_iff_le, Option.some.injEq]
        constructor
        · rintro ⟨h1, h2⟩
          exact ⟨cap, rfl, h1, h2⟩
        · rintro ⟨cap2, hcap2, h1, h2⟩
          subst hcap2
          exact ⟨h1, h2⟩
  refine ⟨hmain prev, fun q hp hq => ?_⟩
  obtain ⟨cap1, hc1, hlt1, hle1⟩ := (hmain prev).mp hp
  obtain ⟨cap2, hc2, hlt2, hle2⟩ := (hmain q).mp hq
  rw [hc1] at hc2
  injection hc2 with hc2
  subst hc2
  omega

/-- Witness for C6 at a concrete input: `maxRequestsPerInstance = 10`
with the default capacity threshold gives limit `⌊10 · 7/10⌋ = 7`, and
the transition `6 → 7` fires the trigger. -/
theorem checkOptimisticScaleUp_edge_trigger_witness :
    checkOptimisticScaleUp
        { maxInstances := 10, minInstances := none,
          maxRequestsPerInstance := some 10, scaleUpCapacityThreshold := none,
          scaleThesholdCPU := none, scaleThesholdMemoryMiB := none,
          scaleThesholdDiskGB := none, scaleThreshold := none,
          scaleUpCooldown := none, scaleDownCooldown := none,
          scaleDownThreshold := none, scaleDownThresholdCPU := none,
          scaleDownThresholdMemory := none, scaleDownThresholdDisk := none }
        ((6 : ℕ) : ℤ) = true := by
  refine (checkOptimisticScaleUp_edge_trigger _ 6).1.mpr ⟨10, rfl, ?_, ?_⟩ <;>
    norm_num

/-- C5 counterexample: config `maxRequestsPerInstance = 1`,
`maxInstances = 10`; registry with healthy non-draining row `a`
(2 active requests) and healthy **draining** row `b` (0 active).  All
three preconditions of the claim hold and the average over the healthy
non-draining instances is `2 > 1`, yet `shouldScaleUpForRequests`
returns false: the code divides by `getInstanceCount()` — all healthy
rows, draining included — giving `2 / 2 = 1`. -/
theorem shouldScaleUpForRequests_wrong_divisor :
    truthyQ (AutoscalerConfig.mk 10 none (some 1) none none none none none
        none none none none none none).maxRequestsPerInstance = true
      ∧ (RegistryState.mk
          [InstanceRecord.mk "a" 0 2 0 0 0 true 0 0 (some false) none 0 none none,
           InstanceRecord.mk "b" 0 0 0 0 0 true 0 0 (some true) none 0 none none]
          none none none).getInstanceCount true
        < (AutoscalerConfig.mk 10 none (some 1) none none none none none
            none none none none none none).maxInstances
      ∧ isInScaleUpCooldown
          (AutoscalerConfig.mk 10 none (some 1) none none none none none
            none none none none none none)
          (RegistryState.mk
            [InstanceRecord.mk "a" 0 2 0 0 0 true 0 0 (some false) none 0 none none,
             InstanceRecord.mk "b" 0 0 0 0 0 true 0 0 (some true) none 0 none none]
            none none none) 0 = false
      ∧ specAvgOverHealthyNonDraining
          (RegistryState.mk
            [InstanceRecord.mk "a" 0 2 0 0 0 true 0 0 (some false) none 0 none none,
             InstanceRecord.mk "b" 0 0 0 0 0 true 0 0 (some true) none 0 none none]
            none none none)
        > (1 : ℚ)
      ∧ shouldScaleUpForRequests
          (AutoscalerConfig.mk 10 none (some 1) none none none none none
            none none none none none none)
          (RegistryState.mk
            [InstanceRecord.mk "a" 0 2 0 0 0 true 0 0 (some false) none 0 none none,
             InstanceRecord.mk "b" 0 0 0 0 0 true 0 0 (some true) none 0 none none]
            none none none) 0 = false := by
  refine ⟨by decide, by decide, rfl, ?_, ?_⟩
  · norm_num [specAvgOverHealthyNonDraining, RegistryState.getInstances,
      matchesFilter, List.mergeSort]
  · norm_num [shouldScaleUpForRequests, RegistryState.getInstances,
      RegistryState.getInstanceCount, isInScaleUpCooldown, truthyQ,
      matchesFilter, List.mergeSort]

/-- C5 amended: under the claim's preconditions (and a non-empty healthy
pool), `shouldScaleUpForRequests` returns true iff the **sum** of
`active_requests` over the healthy non-draining instances exceeds
`maxRequestsPerInstance` times the number of **all** healthy instances,
draining included — the code's divisor is `getInstanceCount()`, not the
size of the healthy non-draining set. -/
theorem shouldScaleUpForRequests_avg_iff (cfg : AutoscalerConfig)
    (st : RegistryState) (now : ℤ)
    (hconf : truthyQ cfg.maxRequestsPerInstance = true)
    (hcount : st.getInstanceCount true < cfg.maxInstances)
    (hcool : isInScaleUpCooldown cfg st now = false)
    (hpos : 0 < st.getInstanceCount true) :
    shouldScaleUpForRequests cfg st now = true ↔
      cfg.maxRequestsPerInstance.getD 0 * (st.getInstanceCount true : ℚ) <
        ((((st.getInstances ⟨some true, true, none⟩).map
            (fun i => i.active_requests)).sum : ℤ) : ℚ) := by
  have hnotge : ¬ (st.getInstanceCount true ≥ cfg.maxInstances) := not_le.mpr hcount
  simp only [shouldScaleUpForRequests, if_neg hnotge, hcool, Bool.false_eq_true,
    if_false, hconf, Bool.not_true, if_pos hpos, gt_iff_lt, decide_eq_true_eq]
  have hc : (0 : ℚ) < (st.getInstanceCount true : ℚ) := by
    exact_mod_cast hpos
  rw [lt_div_iff₀ hc]
  norm_cast
  rw [List.map_map]
  exact Iff.rfl

/-- Witness for the amended C5 at a concrete input: a single healthy
non-draining instance with 3 active requests, `maxRequestsPerInstance
= 1`: `1 · 1 < 3`, and the function indeed returns true. -/
theorem shouldScaleUpForRequests_avg_iff_witness :
    shouldScaleUpForRequests
        (AutoscalerConfig.mk 10 none (some 1) none none none none none
          none none none none none none)
        (RegistryState.mk
          [InstanceRecord.mk "c" 0 3 0 0 0 true 0 0 (some false) none 0 none none]
          none none none) 0 = true := by
  refine (shouldScaleUpForRequests_avg_iff
    (AutoscalerConfig.mk 10 none (some 1) none none none none none
      none none none none none none)
    (RegistryState.mk
      [InstanceRecord.mk "c" 0 3 0 0 0 true 0 0 (some false) none 0 none none]
      none none none) 0 (by decide) (by decide) (by decide) (by decide)).mpr ?_
  norm_num [RegistryState.getInstances, RegistryState.getInstanceCount,
    matchesFilter, List.mergeSort]

/-- A row is at or below all three scale-down thresholds iff
`aboveScaleDownThresholds` is false. -/
theorem not_aboveScaleDownThresholds_iff (cfg : AutoscalerConfig)
    (i : InstanceRecord) :
    ((!aboveScaleDownThresholds cfg i) = true) ↔
      (i.current_cpu ≤ (calculateScaleDownThresholds cfg).1 ∧
       i.current_memory_MiB ≤ (calculateScaleDownThresholds cfg).2.1 ∧
       i.current_disk_GB ≤ (calculateScaleDownThresholds cfg).2.2) := by
  simp [aboveScaleDownThresholds, not_or, not_lt, and_assoc]

/-- C7 counterexample: default config (`minInstances` unset ⇒ 0, general
threshold 75 ⇒ scale-down 30); the registry holds a single healthy
**draining** row.  The count guard passes (`1 > 0`), the cooldown guard
passes, and every healthy non-draining instance is (vacuously) at or
below the scale-down thresholds, so the claim says true — but
`shouldScaleDown` returns false on the empty healthy non-draining
list. -/
theorem shouldScaleDown_false_on_empty_pool :
    (AutoscalerConfig.mk 10 none none none none none none none
        none none none none none none).minInstances.getD 0
      < (RegistryState.mk
          [InstanceRecord.mk "d" 0 0 0 0 0 true 0 0 (some true) none 0 none none]
          none none none).getInstanceCount true
      ∧ isInScaleDownCooldown
          (AutoscalerConfig.mk 10 none none none none none none none
            none none none none none none)
          (RegistryState.mk
            [InstanceRecord.mk "d" 0 0 0 0 0 true 0 0 (some true) none 0 none none]
            none none none) 0 = false
      ∧ ((RegistryState.mk
            [InstanceRecord.mk "d" 0 0 0 0 0 true 0 0 (some true) none 0 none none]
            none none none).getInstances ⟨some true, true, none⟩).all
          (fun i => !aboveScaleDownThresholds
            (AutoscalerConfig.mk 10 none none none none none none none
              none none none none none none) i) = true
      ∧ shouldScaleDown
          (AutoscalerConfig.mk 10 none none none none none none none
            none none none none none none)
          (RegistryState.mk
            [InstanceRecord.mk "d" 0 0 0 0 0 true 0 0 (some true) none 0 none none]
            none none none) 0 = false := by
  refine ⟨by decide, rfl, ?_, ?_⟩
  · simp [RegistryState.getInstances, matchesFilter, List.mergeSort]
  · simp [shouldScaleDown, RegistryState.getInstances, RegistryState.getInstanceCount,
      isInScaleDownCooldown, matchesFilter, List.mergeSort]

/-- C7 amended: `shouldScaleDown` returns false whenever the healthy
count is at or below `minInstances` or the scale-down cooldown has not
elapsed; otherwise it returns true iff **at least one healthy
non-draining instance exists** and every such instance is at or below
the scale-down thresholds; moreover, with all three specific scale-up
thresholds set and no scale-down thresholds given, the thresholds
default per metric to the scale-up threshold minus 45. -/
theorem shouldScaleDown_iff (cfg : AutoscalerConfig) (st : RegistryState)
    (now : ℤ) :
    (st.getInstanceCount true ≤ cfg.minInstances.getD 0 →
        shouldScaleDown cfg st now = false)
      ∧ (isInScaleDownCooldown cfg st now = true →
          shouldScaleDown cfg st now = false)
      ∧ (cfg.minInstances.getD 0 < st.getInstanceCount true →
          isInScaleDownCooldown cfg st now = false →
          (shouldScaleDown cfg st now = true ↔
            (st.getInstances ⟨some true, true, none⟩ ≠ []
              ∧ ∀ i ∈ st.getInstances ⟨some true, true, none⟩,
                  i.current_cpu ≤ (calculateScaleDownThresholds cfg).1
                  ∧ i.current_memory_MiB ≤ (calculateScaleDownThresholds cfg).2.1
                  ∧ i.current_disk_GB ≤ (calculateScaleDownThresholds cfg).2.2)))
      ∧ (hasAllSpecificThresholds cfg = true →
          cfg.scaleDownThresholdCPU = none →
          cfg.scaleDownThresholdMemory = none →
          cfg.scaleDownThresholdDisk = none →
          calculateScaleDownThresholds cfg =
            (cfg.scaleThesholdCPU.getD 0 - 45,
             cfg.scaleThesholdMemoryMiB.getD 0 - 45,
             cfg.scaleThesholdDiskGB.getD 0 - 45)) := by
  refine ⟨?_, ?_, ?_, ?_⟩
  · intro hle
    simp [shouldScaleDown, if_pos hle]
  · intro hcool
    by_cases hle : st.getInstanceCount true ≤ cfg.minInstances.getD 0
    · simp [shouldScaleDown, if_pos hle]
    · simp [shouldScaleDown, if_neg hle, hcool]
  · intro hmin hcool
    have hnotle : ¬ (st.getInstanceCount true ≤ cfg.minInstances.getD 0) :=
      not_le.mpr hmin
    simp only [shouldScaleDown, if_neg hnotle, hcool, Bool.false_eq_true, if_false]
    by_cases hE : st.getInstances ⟨some true, true, none⟩ = []
    · simp [hE]
    · have hE2 : (st.getInstances ⟨some true, true, none⟩).isEmpty = false := by
        simpa [List.isEmpty_iff] using hE
      simp only [hE2, Bool.false_eq_true, if_false, List.all_eq_true]
      constructor
      · intro h
        exact ⟨hE, fun i hi => (not_aboveScaleDownThresholds_iff cfg i).mp (h i hi)⟩
      · intro h i hi
        exact (not_aboveScaleDownThresholds_iff cfg i).mpr (h.2 i hi)
  · intro hall h1 h2 h3
    simp [calculateScaleDownThresholds, hall, h1, h2, h3]

/-- Witness for the amended C7 at concrete inputs: specific scale-up
thresholds `(80, 80, 80)` with no scale-down thresholds give
`(35, 35, 35)`, and one healthy non-draining instance at 10 % on every
metric makes `shouldScaleDown` return true; at the boundary
`count = minInstances = 1` the function returns false. -/
theorem shouldScaleDown_iff_witness :
    shouldScaleDown
        (AutoscalerConfig.mk 10 none none none (some 80) (some 80) (some 80)
          none none none none none none none)
        (RegistryState.mk
          [InstanceRecord.mk "e" 0 0 10 10 10 true 0 0 (some false) none 0 none none]
          none none none) 0 = true
      ∧ calculateScaleDownThresholds
          (AutoscalerConfig.mk 10 none none none (some 80) (some 80) (some 80)
            none none none none none none none)
        = (35, 35, 35)
      ∧ shouldScaleDown
          (AutoscalerConfig.mk 10 (some 1) none none (some 80) (some 80) (some 80)
            none none none none none none none)
          (RegistryState.mk
            [InstanceRecord.mk "e" 0 0 10 10 10 true 0 0 (some false) none 0 none none]
            none none none) 0 = false := by
  have h := shouldScaleDown_iff
    (AutoscalerConfig.mk 10 none none none (some 80) (some 80) (some 80)
      none none none none none none none)
    (RegistryState.mk
      [InstanceRecord.mk "e" 0 0 10 10 10 true 0 0 (some false) none 0 none none]
      none none none) 0
  have hthr := h.2.2.2 (by decide) rfl rfl rfl
  refine ⟨(h.2.2.1 (by decide) rfl).mpr ⟨?_, ?_⟩, ?_, ?_⟩
  · simp [RegistryState.getInstances, matchesFilter, List.mergeSort]
  · intro i hi
    simp [RegistryState.getInstances, matchesFilter, List.mergeSort] at hi
    subst hi
    rw [hthr]
    norm_num
  · rw [hthr]
    norm_num
  · exact (shouldScaleDown_iff
      (AutoscalerConfig.mk 10 (some 1) none none (some 80) (some 80) (some 80)
        none none none none none none none)
      (RegistryState.mk
        [InstanceRecord.mk "e" 0 0 10 10 10 true 0 0 (some false) none 0 none none]
        none none none) 0).1 (by decide)

/-- Soundness of the `shouldScaleUpForMetrics` scan: a returned instance
is in the scanned list, was eligible (`canCross`), and exceeded its
thresholds. -/
theorem scaleUpScan_eq_some (cfg : AutoscalerConfig) (now : ℤ) :
    ∀ (l : List InstanceRecord) (i : InstanceRecord),
      scaleUpScan cfg now l = some i →
      i ∈ l ∧ canCross cfg i now = true ∧ exceedsThreshold cfg i = true := by
  intro l
  induction l with
  | nil => intro i h; exact absurd h (by simp [scaleUpScan])
  | cons a rest ih =>
      intro i h
      by_cases hcond : (canCross cfg a now && exceedsThreshold cfg a) = true
      · rw [scaleUpScan, if_pos hcond] at h
        injection h with h
        subst h
        rw [Bool.and_eq_true] at hcond
        exact ⟨List.mem_cons_self a rest, hcond.1, hcond.2⟩
      · rw [scaleUpScan, if_neg hcond] at h
        obtain ⟨h1, h2, h3⟩ := ih i h
        exact ⟨List.mem_cons_of_mem a h1, h2, h3⟩

/-- Completeness of the scan: an eligible instance exceeding its
thresholds anywhere in the list makes the scan succeed. -/
theorem scaleUpScan_isSome_of_mem (cfg : AutoscalerConfig) (now : ℤ) :
    ∀ (l : List InstanceRecord) (i : InstanceRecord), i ∈ l →
      canCross cfg i now = true → exceedsThreshold cfg i = true →
      (scaleUpScan cfg now l).isSome = true := by
  intro l
  induction l with
  | nil => intro i hi; simp at hi
  | cons a rest ih =>
      intro i hi hc he
      rcases List.mem_cons.mp hi with rfl | hi2
      · rw [scaleUpScan, if_pos (by rw [Bool.and_eq_true]; exact ⟨hc, he⟩)]
        rfl
      · by_cases hcond : (canCross cfg a now && exceedsThreshold cfg a) = true
        · rw [scaleUpScan, if_pos hcond]
          rfl
        · rw [scaleUpScan, if_neg hcond]
          exact ih i hi2 hc he

/-- C1: under the guards of `shouldScaleUpForMetrics` (below
`maxInstances`, not in scale-up cooldown, thresholds configured) the
function returns true iff some healthy non-draining instance whose
`threshold_crossed_at` is absent or at least `scaleUpCooldown` old
exceeds its thresholds; whenever it returns true, exactly such an
instance has been recorded via `markThresholdCrossed(name, now)`, and
when it returns false the registry is untouched — ineligible instances
are never marked. -/
theorem shouldScaleUpForMetrics_marks_crossing (cfg : AutoscalerConfig)
    (st : RegistryState) (now : ℤ)
    (hcount : st.getInstanceCount true < cfg.maxInstances)
    (hcool : isInScaleUpCooldown cfg st now = false)
    (hconf : (hasSpecificThresholds cfg || truthyQ cfg.scaleThreshold) = true) :
    ((shouldScaleUpForMetrics cfg st now).1 = true ↔
        ∃ i ∈ st.getInstances ⟨some true, true, none⟩,
          canCross cfg i now = true ∧ exceedsThreshold cfg i = true)
      ∧ ((shouldScaleUpForMetrics cfg st now).1 = true →
          ∃ i ∈ st.getInstances ⟨some true, true, none⟩,
            canCross cfg i now = true ∧ exceedsThreshold cfg i = true ∧
            (shouldScaleUpForMetrics cfg st now).2
              = st.markThresholdCrossed i.name now)
      ∧ ((shouldScaleUpForMetrics cfg st now).1 = false →
          (shouldScaleUpForMetrics cfg st now).2 = st) := by
  have hnot : ¬ (st.getInstanceCount true ≥ cfg.maxInstances) := not_le.mpr hcount
  have hguard : (!hasSpecificThresholds cfg && !truthyQ cfg.scaleThreshold) = false := by
    rw [← Bool.not_or, hconf]
    rfl
  by_cases hE : st.getInstances ⟨some true, true, none⟩ = []
  · have hE2 : (st.getInstances ⟨some true, true, none⟩).isEmpty = true := by
      simp [hE]
    have hfst : shouldScaleUpForMetrics cfg st now = (false, st) := by
      simp only [shouldScaleUpForMetrics, if_neg hnot, hcool, Bool.false_eq_true,
        if_false, hguard, hE2, if_true]
    rw [hfst]
    refine ⟨?_, fun h => absurd h (by simp), fun _ => rfl⟩
    simp [hE]
  · have hE2 : (st.getInstances ⟨some true, true, none⟩).isEmpty = false := by
      simpa [List.isEmpty_iff] using hE
    rcases hscan : scaleUpScan cfg now (st.getInstances ⟨some true, true, none⟩)
      with _ | i
    · have hfst : shouldScaleUpForMetrics cfg st now = (false, st) := by
        simp only [shouldScaleUpForMetrics, if_neg hnot, hcool, Bool.false_eq_true,
          if_false, hguard, hE2, hscan]
      rw [hfst]
      refine ⟨⟨fun h => absurd h (by simp), ?_⟩, fun h => absurd h (by simp),
        fun _ => rfl⟩
      rintro ⟨i, hi, hc2, he2⟩
      have hs := scaleUpScan_isSome_of_mem cfg now _ i hi hc2 he2
      rw [hscan] at hs
      simp at hs
    · obtain ⟨hiS, hcan, hexc⟩ := scaleUpScan_eq_some cfg now _ i hscan
      have hfst : shouldScaleUpForMetrics cfg st now
          = (true, st.markThresholdCrossed i.name now) := by
        simp only [shouldScaleUpForMetrics, if_neg hnot, hcool, Bool.false_eq_true,
          if_false, hguard, hE2, hscan]
      rw [hfst]
      exact ⟨⟨fun _ => ⟨i, hiS, hcan, hexc⟩, fun _ => rfl⟩,
             fun _ => ⟨i, hiS, hcan, hexc, rfl⟩,
             fun h => absurd h (by simp)⟩

/-- Witness for C1 at a concrete input: general threshold 75, one
healthy non-draining instance at 90 % CPU that has never crossed;
`shouldScaleUpForMetrics` reports a crossing. -/
theorem shouldScaleUpForMetrics_marks_crossing_witness :
    (shouldScaleUpForMetrics
        (AutoscalerConfig.mk 10 none none none none none none (some 75)
          none none none none none none)
        (RegistryState.mk
          [InstanceRecord.mk "m" 0 0 90 0 0 true 0 0 (some false) none 0 none none]
          none none none) 0).1 = true := by
  refine ((shouldScaleUpForMetrics_marks_crossing
    (AutoscalerConfig.mk 10 none none none none none none (some 75)
      none none none none none none)
    (RegistryState.mk
      [InstanceRecord.mk "m" 0 0 90 0 0 true 0 0 (some false) none 0 none none]
      none none none) 0 (by decide) rfl (by decide)).1).mpr ?_
  refine ⟨InstanceRecord.mk "m" 0 0 90 0 0 true 0 0 (some false) none 0 none none,
    ?_, rfl, ?_⟩
  · simp [RegistryState.getInstances, matchesFilter, List.mergeSort]
  · decide

/-- The head of a `getInstances` result is a filtered row minimal in the
registry ordering among all filtered rows. -/
theorem getInstances_head_min (st : RegistryState) (f : InstanceFilter)
    (a : InstanceRecord) (h : (st.getInstances f).head? = some a) :
    (a ∈ st.instances ∧ matchesFilter f a = true)
      ∧ ∀ x ∈ st.instances, matchesFilter f x = true → instanceLE a x = true := by
  obtain ⟨hm, hall⟩ := head?_mergeSort_min (st.instances.filter (matchesFilter f)) a h
  exact ⟨List.mem_filter.mp hm,
    fun x hx hfx => hall x (List.mem_filter.mpr ⟨hx, hfx⟩)⟩

/-- The capacity-filtered `WHERE` clause is the healthy non-draining one
plus the `active_requests < c` condition. -/
theorem matchesFilter_below (c : ℚ) (x : InstanceRecord) :
    matchesFilter ⟨some true, true, some c⟩ x
      = (matchesFilter ⟨some true, true, none⟩ x
          && decide ((x.active_requests : ℚ) < c)) := by
  simp [matchesFilter, Bool.and_assoc]

/-- C4: `selectInstance` returns `none` iff no healthy non-draining row
exists; otherwise it returns a healthy non-draining row of minimal
`active_requests` among them, with ties broken by the most recent
`last_heartbeat`, and when `maxRequestsPerInstance` is configured and
some candidate is below that capacity, the selected row is below it. -/
theorem selectInstance_least_loaded (cfg : AutoscalerConfig)
    (st : RegistryState) :
    (selectInstance cfg st = none ↔
        st.instances.filter (matchesFilter ⟨some true, true, none⟩) = [])
      ∧ (∀ i, selectInstance cfg st = some i →
          (i ∈ st.instances ∧ matchesFilter ⟨some true, true, none⟩ i = true)
          ∧ (∀ j ∈ st.instances, matchesFilter ⟨some true, true, none⟩ j = true →
              i.active_requests ≤ j.active_requests)
          ∧ (∀ j ∈ st.instances, matchesFilter ⟨some true, true, none⟩ j = true →
              j.active_requests = i.active_requests →
              j.last_heartbeat ≤ i.last_heartbeat)
          ∧ (∀ c, cfg.maxRequestsPerInstance = some c →
              (∃ j ∈ st.instances, matchesFilter ⟨some true, true, none⟩ j = true ∧
                (j.active_requests : ℚ) < c) →
              (i.active_requests : ℚ) < c)) := by
  rcases hcap : cfg.maxRequestsPerInstance with _ | c
  · -- no capacity filter: both branches query the same filter
    have hsame : selectInstance cfg st
        = (st.getInstances ⟨some true, true, none⟩).head? := by
      rw [selectInstance, hcap]
      rcases hh : (st.getInstances ⟨some true, true, none⟩).head? with _ | i
      · simp [hh]
      · simp [hh]
    rw [hsame]
    constructor
    · rw [List.head?_eq_none_iff]
      exact (mergeSort_eq_nil_iff _)
    · intro i hi
      obtain ⟨⟨hmem, hfil⟩, hmin⟩ := getInstances_head_min st _ i hi
      refine ⟨⟨hmem, hfil⟩, ?_, ?_, ?_⟩
      · intro j hj hfj
        rcases (instanceLE_iff i j).mp (hmin j hj hfj) with h | ⟨h, _⟩
        · exact le_of_lt h
        · exact le_of_eq h
      · intro j hj hfj heq
        rcases (instanceLE_iff i j).mp (hmin j hj hfj) with h | ⟨_, h⟩
        · exact absurd heq.symm (ne_of_lt h)
        · exact h
      · intro c2 hc2
        exact absurd hc2 (by simp)
  · rcases h1 : (st.getInstances ⟨some true, true, some c⟩).head? with _ | i1
    · -- below-capacity query empty: fall back to any healthy non-draining row
      have hsel : selectInstance cfg st
          = (st.getInstances ⟨some true, true, none⟩).head? := by
        rw [selectInstance, hcap, h1]
      have hempty1 : st.instances.filter (matchesFilter ⟨some true, true, some c⟩)
          = [] := (mergeSort_eq_nil_iff _).mp (List.head?_eq_none_iff.mp h1)
      have hnone_below : ∀ j ∈ st.instances,
          matchesFilter ⟨some true, true, none⟩ j = true →
          ¬ ((j.active_requests : ℚ) < c) := by
        intro j hj hfj hlt
        have : matchesFilter ⟨some true, true, some c⟩ j = true := by
          rw [matchesFilter_below, hfj, decide_eq_true hlt]
          rfl
        have hjin : j ∈ st.instances.filter (matchesFilter ⟨some true, true, some c⟩) :=
          List.mem_filter.mpr ⟨hj, this⟩
        rw [hempty1] at hjin
        simp at hjin
      rw [hsel]
      constructor
      · rw [List.head?_eq_none_iff]
        exact (mergeSort_eq_nil_iff _)
      · intro i hi
        obtain ⟨⟨hmem, hfil⟩, hmin⟩ := getInstances_head_min st _ i hi
        refine ⟨⟨hmem, hfil⟩, ?_, ?_, ?_⟩
        · intro j hj hfj
          rcases (instanceLE_iff i j).mp (hmin j hj hfj) with h | ⟨h, _⟩
          · exact le_of_lt h
          · exact le_of_eq h
        · intro j hj hfj heq
          rcases (instanceLE_iff i j).mp (hmin j hj hfj) with h | ⟨_, h⟩
          · exact absurd heq.symm (ne_of_lt h)
          · exact h
        · intro c2 hc2 hex
          injection hc2 with hc2
          subst hc2
          obtain ⟨j, hj, hfj, hlt⟩ := hex
          exact absurd hlt (hnone_below j hj hfj)
    · -- a below-capacity row exists and is selected
      have hsel : selectInstance cfg st = some i1 := by
        rw [selectInstance, hcap, h1]
      obtain ⟨⟨hmem, hfil⟩, hmin⟩ := getInstances_head_min st _ i1 h1
      rw [matchesFilter_below, Bool.and_eq_true, decide_eq_true_eq] at hfil
      rw [hsel]
      constructor
      · constructor
        · intro h
          exact absurd h (by simp)
        · intro hS
          have : i1 ∈ st.instances.filter (matchesFilter ⟨some true, true, none⟩) :=
            List.mem_filter.mpr ⟨hmem, hfil.1⟩
          rw [hS] at this
          simp at this
      · intro i0 hi0
        injection hi0 with hi0
        subst hi0
        have hminS : ∀ j ∈ st.instances,
            matchesFilter ⟨some true, true, none⟩ j = true →
            i1.active_requests ≤ j.active_requests := by
          intro j hj hfj
          by_cases hjc : (j.active_requests : ℚ) < c
          · have hfj2 : matchesFilter ⟨some true, true, some c⟩ j = true := by
              rw [matchesFilter_below, hfj, decide_eq_true hjc]
              rfl
            rcases (instanceLE_iff i1 j).mp (hmin j hj hfj2) with h | ⟨h, _⟩
            · exact le_of_lt h
            · exact le_of_eq h
          · have : (i1.active_requests : ℚ) < (j.active_requests : ℚ) :=
              lt_of_lt_of_le hfil.2 (not_lt.mp hjc)
            exact le_of_lt (by exact_mod_cast this)
        refine ⟨⟨hmem, hfil.1⟩, hminS, ?_, ?_⟩
        · intro j hj hfj heq
          have hjc : (j.active_requests : ℚ) < c := by
            rw [heq]
            exact hfil.2
          have hfj2 : matchesFilter ⟨some true, true, some c⟩ j = true := by
            rw [matchesFilter_below, hfj, decide_eq_true hjc]
            rfl
          rcases (instanceLE_iff i1 j).mp (hmin j hj hfj2) with h | ⟨_, h⟩
          · exact absurd heq.symm (ne_of_lt h)
          · exact h
        · intro c2 hc2 _
          injection hc2 with hc2
          subst hc2
          exact hfil.2

/-- Witness for C4 at a concrete input: rows `a` (1 active request) and
`b` (2 active requests), both healthy and non-draining, capacity 10;
the router selects `a`, whose load is minimal. -/
theorem selectInstance_least_loaded_witness :
    selectInstance
        (AutoscalerConfig.mk 10 none (some 10) none none none none none
          none none none none none none)
        (RegistryState.mk
          [InstanceRecord.mk "a" 0 1 0 0 0 true 5 0 (some false) none 0 none none,
           InstanceRecord.mk "b" 0 2 0 0 0 true 9 0 (some false) none 0 none none]
          none none none)
      = some (InstanceRecord.mk "a" 0 1 0 0 0 true 5 0 (some false) none 0 none none)
    ∧ (InstanceRecord.mk "a" 0 1 0 0 0 true 5 0 (some false) none 0
        none none).active_requests
      ≤ (InstanceRecord.mk "b" 0 2 0 0 0 true 9 0 (some false) none 0
          none none).active_requests := by
  have hsel : selectInstance
      (AutoscalerConfig.mk 10 none (some 10) none none none none none
        none none none none none none)
      (RegistryState.mk
        [InstanceRecord.mk "a" 0 1 0 0 0 true 5 0 (some false) none 0 none none,
         InstanceRecord.mk "b" 0 2 0 0 0 true 9 0 (some false) none 0 none none]
        none none none)
      = some (InstanceRecord.mk "a" 0 1 0 0 0 true 5 0 (some false) none 0 none none) := by
    norm_num [selectInstance, RegistryState.getInstances, matchesFilter,
      List.mergeSort, instanceLE]
  have h := (selectInstance_least_loaded
    (AutoscalerConfig.mk 10 none (some 10) none none none none none
      none none none none none none)
    (RegistryState.mk
      [InstanceRecord.mk "a" 0 1 0 0 0 true 5 0 (some false) none 0 none none,
       InstanceRecord.mk "b" 0 2 0 0 0 true 9 0 (some false) none 0 none none]
      none none none)).2 _ hsel
  exact ⟨hsel, h.2.1
    (InstanceRecord.mk "b" 0 2 0 0 0 true 9 0 (some false) none 0 none none)
    (by simp) (by rfl)⟩

/-- C3 counterexample: empty registry with `maxInstances = 0` — no
instance can be selected and none can be created.  `fetch` answers
`500 Internal Server Error`, not the `503` (with `Retry-After: 5`) the
claim requires: `getLeastLoadedContainer` throws and `fetch`'s `catch`
maps every exception to 500. -/
theorem fetch_500_when_no_instance :
    statusOf (Autoscaler.fetch
        (AutoscalerConfig.mk 0 none none none none none none none
          none none none none none none)
        (RegistryState.mk [] none none none)
        (RuntimeOracle.mk none (fun _ => none) (fun _ => true) (fun _ => true))
        0 false).1 = some 500
      ∧ statusOf (Autoscaler.fetch
          (AutoscalerConfig.mk 0 none none none none none none none
            none none none none none none)
          (RegistryState.mk [] none none none)
          (RuntimeOracle.mk none (fun _ => none) (fun _ => true) (fun _ => true))
          0 false).1 ≠ some 503 := by
  have h : (Autoscaler.fetch
      (AutoscalerConfig.mk 0 none none none none none none none
        none none none none none none)
      (RegistryState.mk [] none none none)
      (RuntimeOracle.mk none (fun _ => none) (fun _ => true) (fun _ => true))
      0 false).1 = FetchResult.errorResponse 500 "Internal Server Error" := by
    simp [Autoscaler.fetch, getLeastLoadedContainer, createNewInstance,
      RegistryState.getInstanceCount, List.mergeSort]
  rw [h]
  exact ⟨rfl, by simp [statusOf]⟩

/-- C3 amended: `fetch` surfaces to the client only the monitoring
snapshot (200), the upstream container's response, or
`500 Internal Server Error` — there is no 503 path and no `Retry-After`
header; in particular, when the registry is empty and no container can
be created (`maxInstances ≤ 0`), the response is the 500 error. -/
theorem fetch_only_healthz_upstream_or_500 (cfg : AutoscalerConfig)
    (st : RegistryState) (o : RuntimeOracle) (now : ℤ) (b : Bool) :
    ((Autoscaler.fetch cfg st o now b).1 = FetchResult.healthz
        ∨ (∃ n, (Autoscaler.fetch cfg st o now b).1 = FetchResult.upstream n)
        ∨ (Autoscaler.fetch cfg st o now b).1
            = FetchResult.errorResponse 500 "Internal Server Error")
      ∧ (st.instances = [] → cfg.maxInstances ≤ 0 → b = false →
          (Autoscaler.fetch cfg st o now b).1
            = FetchResult.errorResponse 500 "Internal Server Error") := by
  constructor
  · rcases b with _ | _
    · rcases hG : getLeastLoadedContainer cfg st o with _ | ⟨n, s, st2⟩
      · exact Or.inr (Or.inr (by simp [Autoscaler.fetch, hG]))
      · rcases hB : beforeRequest st2 n s now with _ | st3
        · exact Or.inr (Or.inr (by simp [Autoscaler.fetch, hG, hB]))
        · rcases hU : o.upstreamOK n with _ | _
          · exact Or.inr (Or.inr (by simp [Autoscaler.fetch, hG, hB, hU]))
          · exact Or.inr (Or.inl ⟨n, by simp [Autoscaler.fetch, hG, hB, hU]⟩)
    · exact Or.inl (by simp [Autoscaler.fetch])
  · intro h1 h2 h3
    subst h3
    have hcnt : st.getInstanceCount true = 0 := by
      simp [RegistryState.getInstanceCount, h1]
    have hc : st.getInstanceCount true ≥ cfg.maxInstances := by omega
    have hcreate : createNewInstance cfg st o = none := by
      simp [createNewInstance, hc]
    have hG : getLeastLoadedContainer cfg st o = none := by
      simp [getLeastLoadedContainer, h1, List.mergeSort, hcreate]
    simp [Autoscaler.fetch, hG]

/-- Witness for the amended C3 at a concrete input: the empty registry
with `maxInstances = 0` yields the 500 error response. -/
theorem fetch_only_healthz_upstream_or_500_witness :
    (Autoscaler.fetch
        (AutoscalerConfig.mk 0 none none none none none none none
          none none none none none none)
        (RegistryState.mk [] none none none)
        (RuntimeOracle.mk none (fun _ => none) (fun _ => false) (fun _ => false))
        0 false).1 = FetchResult.errorResponse 500 "Internal Server Error" :=
  (fetch_only_healthz_upstream_or_500
    (AutoscalerConfig.mk 0 none none none none none none none
      none none none none none none)
    (RegistryState.mk [] none none none)
    (RuntimeOracle.mk none (fun _ => none) (fun _ => false) (fun _ => false))
    0 false).2 rfl (by decide) rfl
